import Mathlib

/-!
Shallow embedding of the ad-catering repository's route handlers, edge
middleware and auth flow, together with proofs about the behaviours the
specification claims.

Conventions of the embedding:
* JavaScript numbers are modelled as `ℚ` (the handlers only do exact
  small-scale arithmetic on them) and integer query parameters as `ℤ`.
* `null`/`undefined` are modelled with `Option`; where the source
  distinguishes the two (the zod `.optional().nullable()` update fields,
  where `=== null` matters) a field is `Option (Option _)`:
  `none` = absent (undefined), `some none` = null, `some (some v)` = value.
* JS truthiness on numbers (`0` falsy) and strings (`""` falsy) is made
  explicit with the `truthy…`/`jsOrNull…` helpers below.
* A request body that fails `JSON.parse` or zod validation is modelled as
  `Option body = none` (both produce a 400 before any persistence call).
* Each handler returns a `HandlerOut`: HTTP status, response body, the
  database after the call, and a `trace` of the persistence (Prisma)
  operations it performed, in order.
* External collaborators (JWT verification, bcrypt, id generation, clock)
  are parameters of the handlers.
-/

namespace ADCatering

/-- `searchParams.get(p) || "d"`: the default applies when the parameter is
absent (`null`) or the empty string (both JS-falsy). -/
def strOrDefault (v : Option String) (d : String) : String :=
  match v with
  | none => d
  | some s => if s = "" then d else s

/-- Maximal leading run of decimal digits. -/
def leadingDigits : List Char → List Char
  | [] => []
  | c :: cs => if c.isDigit then c :: leadingDigits cs else []

/-- Value of a digit list (most significant first). -/
def digitsToNat (cs : List Char) : Nat :=
  cs.foldl (fun a c => a * 10 + (c.toNat - 48)) 0

/-- Model of JS `parseInt` on a decimal string: optional sign, then the
maximal run of leading digits; `none` models `NaN` (no digits). Leading
whitespace trimming is irrelevant to the inputs considered here. -/
def parseIntJS (s : String) : Option Int :=
  match s.data with
  | '-' :: rest =>
    let ds := leadingDigits rest
    if ds.isEmpty then none else some (-(digitsToNat ds : Int))
  | '+' :: rest =>
    let ds := leadingDigits rest
    if ds.isEmpty then none else some (digitsToNat ds : Int)
  | cs =>
    let ds := leadingDigits cs
    if ds.isEmpty then none else some (digitsToNat ds : Int)

/-- `listStarts pre l` : `pre` is a prefix of `l` (JS `String.startsWith`
on the underlying characters). -/
def listStarts : List Char → List Char → Bool
  | [], _ => true
  | _ :: _, [] => false
  | a :: pre, b :: l => a == b && listStarts pre l

/-- JS `s.startsWith(p)`. -/
def jsStartsWith (s p : String) : Bool :=
  listStarts p.data s.data

/-- `listInfixCheck needle hay` : `needle` occurs contiguously in `hay`. -/
def listInfixCheck (needle : List Char) : List Char → Bool
  | [] => needle.isEmpty
  | c :: t => listStarts needle (c :: t) || listInfixCheck needle t

/-- Lower-cased string (character-wise, as the ASCII names here need). -/
def lowerStr (s : String) : String := ⟨s.data.map Char.toLower⟩

/-- Upper-cased string (JS `toUpperCase` on the names here). -/
def upperStr (s : String) : String := ⟨s.data.map Char.toUpper⟩

/-- Prisma `contains` with `mode: "insensitive"`: case-insensitive
substring test. -/
def containsCI (hay needle : String) : Bool :=
  listInfixCheck (lowerStr needle).data (lowerStr hay).data

/-- JS `s.split(sep)` for a one-character separator, on the character
list. -/
def splitCharList (sep : Char) : List Char → List (List Char)
  | [] => [[]]
  | c :: cs =>
    let rest := splitCharList sep cs
    if c == sep then [] :: rest
    else
      match rest with
      | [] => [[c]]
      | r :: rs => (c :: r) :: rs

/-- JS `s.split(sep)` for a one-character separator. -/
def jsSplit (s : String) (sep : Char) : List String :=
  (splitCharList sep s.data).map (fun l => ⟨l⟩)

/-- JS truthiness of an optional number (`undefined`/`null`/`0` falsy). -/
def truthyNumQ : Option ℚ → Bool
  | none => false
  | some x => x != 0

/-- JS truthiness of an optional integer. -/
def truthyNumI : Option Int → Bool
  | none => false
  | some n => n != 0

/-- JS truthiness of an `.optional().nullable()` number field. -/
def truthyNumQQ : Option (Option ℚ) → Bool
  | some (some x) => x != 0
  | _ => false

/-- JS `v || null` on an optional number: `0` collapses to `null`. -/
def jsOrNullQ : Option ℚ → Option ℚ
  | none => none
  | some x => if x = 0 then none else some x

/-- JS `v || null` on an optional integer: `0` collapses to `null`. -/
def jsOrNullI : Option Int → Option Int
  | none => none
  | some n => if n = 0 then none else some n

/-- JS `v || undefined` on an optional string: `""` collapses away. -/
def jsOrNullStr : Option String → Option String
  | none => none
  | some s => if s = "" then none else some s

/-- Underlying value of an optional rational (used only under a truthiness
guard, which ensures the `some` case). -/
def qValOf (o : Option ℚ) : ℚ := o.getD 0

/-- Underlying value of an `.optional().nullable()` rational. -/
def qqValOf (o : Option (Option ℚ)) : ℚ := (o.getD none).getD 0

/-- JS `Math.round` on an exact rational: half rounds toward `+∞`. -/
def jsRound (q : ℚ) : Int := ⌊q + 1 / 2⌋

/-- `Math.ceil(total / limit)` on JS numbers: a zero divisor produces
`Infinity`/`NaN`, i.e. no finite page count, modelled as `none`. -/
def jsCeilDiv (total limitv : Int) : Option Int :=
  if limitv = 0 then none else some ⌈(total : ℚ) / (limitv : ℚ)⌉

/-! ## Data model (prisma schema, migration in the repository) -/

inductive Role where
  | USER : Role
  | ADMIN : Role
deriving DecidableEq, Repr

inductive ProductStatus where
  | DRAFT : ProductStatus
  | PUBLISHED : ProductStatus
deriving DecidableEq, Repr

structure User where
  id : String
  name : Option String
  email : String
  password : String
  role : Role
deriving DecidableEq, Repr

structure Category where
  id : String
  name : String
  createdAt : Nat
deriving DecidableEq, Repr

structure Menu where
  id : String
  name : String
  description : List String
  price : ℚ
  discountedPrice : Option ℚ
  discountPercent : Option Int
  status : ProductStatus
  imageUrl : Option String
  imageKey : Option String
  imageAlt : Option String
  categoryId : String
  createdAt : Nat
deriving DecidableEq, Repr

structure DB where
  users : List User
  categories : List Category
  menus : List Menu
deriving DecidableEq, Repr

/-- Number of menus owned by a category (`_count.menus` include). -/
def menuCountOf (db : DB) (catId : String) : Nat :=
  (db.menus.filter (fun m => m.categoryId == catId)).length

/-- `orderBy: { createdAt: "desc" }` for menus. -/
def menuNewerFirst (a b : Menu) : Prop := b.createdAt ≤ a.createdAt

instance : DecidableRel menuNewerFirst :=
  fun a b => inferInstanceAs (Decidable (b.createdAt ≤ a.createdAt))

/-- `orderBy: { createdAt: "asc" }` for menus. -/
def menuOlderFirst (a b : Menu) : Prop := a.createdAt ≤ b.createdAt

instance : DecidableRel menuOlderFirst :=
  fun a b => inferInstanceAs (Decidable (a.createdAt ≤ b.createdAt))

/-- `orderBy: { createdAt: "desc" }` for categories. -/
def categoryNewerFirst (a b : Category) : Prop := b.createdAt ≤ a.createdAt

instance : DecidableRel categoryNewerFirst :=
  fun a b => inferInstanceAs (Decidable (b.createdAt ≤ a.createdAt))

/-- `orderBy: { createdAt: "asc" }` for categories. -/
def categoryOlderFirst (a b : Category) : Prop := a.createdAt ≤ b.createdAt

instance : DecidableRel categoryOlderFirst :=
  fun a b => inferInstanceAs (Decidable (a.createdAt ≤ b.createdAt))

/-! ## Auth primitives (src/lib/verify-jwt.ts) -/

structure TokenPayload where
  userId : String
  email : String
  full_name : String
  user_role : String
  isAdmin : Bool
deriving DecidableEq, Repr

/-- `getTokenFromHeader`: require a `Bearer ` prefix, take
`authHeader.split(" ")[1]`. -/
def getTokenFromHeader (authHeader : Option String) : Option String :=
  match authHeader with
  | none => none
  | some h =>
    if jsStartsWith h "Bearer " = true then (jsSplit h ' ').get? 1 else none

/-- `const session = token ? verifyAuthToken(token) : null` — the empty
token is JS-falsy. `verify` is the external `jwt.verify` collaborator. -/
def sessionOf (verify : String → Option TokenPayload)
    (authHeader : Option String) : Option TokenPayload :=
  match getTokenFromHeader authHeader with
  | none => none
  | some t => if t = "" then none else verify t

/-- Negation of `!session || session.user_role !== "admin"`. -/
def isAdminSessionB : Option TokenPayload → Bool
  | none => false
  | some p => p.user_role == "admin"

/-! ## Handler output -/

/-- Result of one route-handler invocation: HTTP status, response body,
database after the call, persistence-operation trace. -/
structure HandlerOut (α : Type) where
  status : Nat
  body : α
  db : DB
  trace : List String
deriving DecidableEq, Repr

/-- `pagination` object of the listing responses. `pages` is `none` when
`Math.ceil(total / limit)` is not a finite integer (zero `limit`). -/
structure Pagination where
  page : Int
  limit : Int
  total : Int
  pages : Option Int
deriving DecidableEq, Repr

structure MenusListBody where
  menus : List Menu
  pagination : Option Pagination
deriving DecidableEq, Repr

structure CategoriesListBody where
  categories : List (Category × Nat)
  pagination : Option Pagination
deriving DecidableEq, Repr

/-- `getIdFromRequest`: last path segment, `|| null` (empty segment). -/
def getIdFromRequest (pathname : String) : Option String :=
  match (jsSplit pathname '/').getLast? with
  | none => none
  | some s => if s = "" then none else some s

/-! ## GET /api/admin/menus (src/app/api/admin/menus/route.ts) -/

/-- `where` filter of the admin menu listing: optional name/description
search (`OR`), optional `categoryId`, optional valid `status`. -/
def menuWhere (search categoryId status : String) (m : Menu) : Bool :=
  (search == "" || (containsCI m.name search || m.description.contains search)) &&
  (categoryId == "" || m.categoryId == categoryId) &&
  (if status ≠ "" ∧ (status = "DRAFT" ∨ status = "PUBLISHED")
   then m.status == (if status = "DRAFT" then ProductStatus.DRAFT else ProductStatus.PUBLISHED)
   else true)

def adminMenusGET (verify : String → Option TokenPayload)
    (authHeader : Option String)
    (qPage qLimit qSearch qCategoryId qStatus : Option String)
    (db : DB) : HandlerOut MenusListBody :=
  if isAdminSessionB (sessionOf verify authHeader) = false then
    ⟨401, ⟨[], none⟩, db, []⟩
  else
    match parseIntJS (strOrDefault qPage "1"),
          parseIntJS (strOrDefault qLimit "10") with
    | some page, some limitv =>
      let search := strOrDefault qSearch ""
      let categoryId := strOrDefault qCategoryId ""
      let status := strOrDefault qStatus ""
      let skip := (page - 1) * limitv
      let filtered := db.menus.filter (menuWhere search categoryId status)
      let sorted := List.insertionSort menuNewerFirst filtered
      -- `toNat` clamps negative skip/take at 0; Prisma rejects negative
      -- values with an error (a 500 here), which no claim exercises.
      let paged := (sorted.drop skip.toNat).take limitv.toNat
      let total : Int := filtered.length
      ⟨200, ⟨paged, some ⟨page, limitv, total, jsCeilDiv total limitv⟩⟩,
        db, ["menu.findMany", "menu.count"]⟩
    | _, _ =>
      -- A NaN page/limit reaches Prisma, whose argument validation
      -- rejects it before any query; the catch block maps it to 500.
      ⟨500, ⟨[], none⟩, db, []⟩

/-! ## GET /api/admin/categories (src/app/api/admin/categories/route.ts) -/

def categoryWhere (search : String) (c : Category) : Bool :=
  search == "" || containsCI c.name search

def adminCategoriesGET (verify : String → Option TokenPayload)
    (authHeader : Option String)
    (qPage qLimit qSearch : Option String)
    (db : DB) : HandlerOut CategoriesListBody :=
  if isAdminSessionB (sessionOf verify authHeader) = false then
    ⟨401, ⟨[], none⟩, db, []⟩
  else
    match parseIntJS (strOrDefault qPage "1"),
          parseIntJS (strOrDefault qLimit "10") with
    | some page, some limitv =>
      let search := strOrDefault qSearch ""
      let skip := (page - 1) * limitv
      let filtered := db.categories.filter (categoryWhere search)
      let sorted := List.insertionSort categoryNewerFirst filtered
      let paged := (sorted.drop skip.toNat).take limitv.toNat
      let total : Int := filtered.length
      ⟨200, ⟨paged.map (fun c => (c, menuCountOf db c.id)),
        some ⟨page, limitv, total, jsCeilDiv total limitv⟩⟩,
        db, ["category.findMany", "category.count"]⟩
    | _, _ =>
      ⟨500, ⟨[], none⟩, db, []⟩

/-! ## POST /api/admin/categories -/

structure CategoryCreateBody where
  name : String
deriving DecidableEq, Repr

/-- zod: `name` between 1 and 100 characters. -/
def validCategoryName (n : String) : Bool :=
  1 ≤ n.length && n.length ≤ 100

def adminCategoriesPOST (verify : String → Option TokenPayload)
    (authHeader : Option String) (body : Option CategoryCreateBody)
    (newId : String) (now : Nat) (db : DB) : HandlerOut (Option Category) :=
  if isAdminSessionB (sessionOf verify authHeader) = false then
    ⟨401, none, db, []⟩
  else
    match body with
    | none => ⟨400, none, db, []⟩
    | some b =>
      if validCategoryName b.name = false then ⟨400, none, db, []⟩
      else
        match db.categories.find? (fun c => c.name == b.name) with
        | some _ => ⟨400, none, db, ["category.findUnique"]⟩
        | none =>
          let c : Category := ⟨newId, b.name, now⟩
          ⟨201, some c, { db with categories := c :: db.categories },
            ["category.findUnique", "category.create"]⟩

/-! ## GET /api/admin/categories/[id] -/

def adminCategoryGET (verify : String → Option TokenPayload)
    (authHeader : Option String) (reqPath : String) (db : DB) :
    HandlerOut (Option (Category × List Menu)) :=
  if isAdminSessionB (sessionOf verify authHeader) = false then
    ⟨401, none, db, []⟩
  else
    match getIdFromRequest reqPath with
    | none => ⟨400, none, db, []⟩
    | some i =>
      match db.categories.find? (fun c => c.id == i) with
      | none => ⟨404, none, db, ["category.findUnique"]⟩
      | some c =>
        let menus := List.insertionSort menuNewerFirst
          (db.menus.filter (fun m => m.categoryId == i))
        ⟨200, some (c, menus), db, ["category.findUnique"]⟩

/-! ## PUT /api/admin/categories/[id] -/

def adminCategoryPUT (verify : String → Option TokenPayload)
    (authHeader : Option String) (reqPath : String)
    (body : Option CategoryCreateBody) (db : DB) :
    HandlerOut (Option Category) :=
  if isAdminSessionB (sessionOf verify authHeader) = false then
    ⟨401, none, db, []⟩
  else
    match getIdFromRequest reqPath with
    | none => ⟨400, none, db, []⟩
    | some i =>
      match body with
      | none => ⟨400, none, db, []⟩
      | some b =>
        if validCategoryName b.name = false then ⟨400, none, db, []⟩
        else
          match db.categories.find? (fun c => c.id == i) with
          | none => ⟨404, none, db, ["category.findUnique"]⟩
          | some old =>
            match db.categories.find?
                (fun c => c.name == b.name && c.id != i) with
            | some _ =>
              ⟨400, none, db, ["category.findUnique", "category.findFirst"]⟩
            | none =>
              let upd : Category := { old with name := b.name }
              ⟨200, some upd,
                { db with categories :=
                    db.categories.map (fun c => if c.id == i then { c with name := b.name } else c) },
                ["category.findUnique", "category.findFirst", "category.update"]⟩

/-! ## DELETE /api/admin/categories/[id] -/

def adminCategoryDELETE (verify : String → Option TokenPayload)
    (authHeader : Option String) (reqPath : String) (db : DB) :
    HandlerOut String :=
  if isAdminSessionB (sessionOf verify authHeader) = false then
    ⟨401, "Unauthorized", db, []⟩
  else
    match getIdFromRequest reqPath with
    | none => ⟨400, "Invalid ID", db, []⟩
    | some i =>
      match db.categories.find? (fun c => c.id == i) with
      | none => ⟨404, "Category not found", db, ["category.findUnique"]⟩
      | some _ =>
        if menuCountOf db i > 0 then
          ⟨400, "Cannot delete category with existing menus", db,
            ["category.findUnique"]⟩
        else
          ⟨200, "Category deleted successfully",
            { db with categories := db.categories.filter (fun c => !(c.id == i)) },
            ["category.findUnique", "category.delete"]⟩

/-! ## POST /api/admin/menus (JSON branch; the multipart branch only adds
image fields obtained from the external storage collaborator and runs the
identical discount computation) -/

structure MenuCreateBody where
  name : String
  description : List String
  price : ℚ
  discountedPrice : Option ℚ
  discountPercent : Option Int
  status : ProductStatus
  imageAlt : Option String
  categoryId : String
deriving DecidableEq, Repr

/-- zod `createMenuSchema` constraints on the numeric and size bounds. -/
def validateCreateMenu (b : MenuCreateBody) : Bool :=
  (1 ≤ b.name.length && b.name.length ≤ 200) &&
  !b.description.isEmpty &&
  decide (0 < b.price) &&
  (match b.discountedPrice with
   | none => true
   | some v => decide (0 < v)) &&
  (match b.discountPercent with
   | none => true
   | some k => decide (0 ≤ k ∧ k ≤ 100)) &&
  (1 ≤ b.categoryId.length)

/-- The `finalData.discountPercent` computation of the create handler:
recompute from the two absolute prices only when `discountedPrice` is
truthy and `discountPercent` is falsy, else `discountPercent || null`. -/
def createDiscountPercent (b : MenuCreateBody) : Option Int :=
  if truthyNumQ b.discountedPrice && !truthyNumI b.discountPercent then
    some (jsRound (((b.price - qValOf b.discountedPrice) / b.price) * 100))
  else jsOrNullI b.discountPercent

def adminMenusPOST (verify : String → Option TokenPayload)
    (authHeader : Option String) (body : Option MenuCreateBody)
    (newId : String) (now : Nat) (db : DB) : HandlerOut (Option Menu) :=
  if isAdminSessionB (sessionOf verify authHeader) = false then
    ⟨401, none, db, []⟩
  else
    match body with
    | none => ⟨400, none, db, []⟩
    | some b =>
      if validateCreateMenu b = false then ⟨400, none, db, []⟩
      else
        match db.categories.find? (fun c => c.id == b.categoryId) with
        | none => ⟨400, none, db, ["category.findUnique"]⟩
        | some _ =>
          let m : Menu :=
            { id := newId, name := b.name, description := b.description,
              price := b.price,
              discountedPrice := jsOrNullQ b.discountedPrice,
              discountPercent := createDiscountPercent b,
              status := b.status,
              imageUrl := none, imageKey := none, imageAlt := b.imageAlt,
              categoryId := b.categoryId, createdAt := now }
          ⟨201, some m, { db with menus := m :: db.menus },
            ["category.findUnique", "menu.create"]⟩

/-! ## GET /api/admin/menus/[id] -/

def adminMenuGET (verify : String → Option TokenPayload)
    (authHeader : Option String) (reqPath : String) (db : DB) :
    HandlerOut (Option Menu) :=
  if isAdminSessionB (sessionOf verify authHeader) = false then
    ⟨401, none, db, []⟩
  else
    match getIdFromRequest reqPath with
    | none => ⟨400, none, db, []⟩
    | some i =>
      match db.menus.find? (fun m => m.id == i) with
      | none => ⟨404, none, db, ["menu.findUnique"]⟩
      | some m => ⟨200, some m, db, ["menu.findUnique"]⟩

/-! ## PUT /api/admin/menus/[id] (JSON branch) -/

structure MenuUpdateBody where
  name : Option String
  description : Option (List String)
  price : Option ℚ
  discountedPrice : Option (Option ℚ)
  discountPercent : Option (Option Int)
  status : Option ProductStatus
  imageUrl : Option (Option String)
  imageKey : Option (Option String)
  imageAlt : Option (Option String)
  categoryId : Option String
deriving DecidableEq, Repr

/-- zod `updateMenuSchema` constraints (URL well-formedness of `imageUrl`
is not modelled; it is irrelevant to the claims). -/
def validateUpdateMenu (b : MenuUpdateBody) : Bool :=
  (match b.name with
   | none => true
   | some n => 1 ≤ n.length && n.length ≤ 200) &&
  (match b.description with
   | none => true
   | some d => !d.isEmpty) &&
  (match b.price with
   | none => true
   | some v => decide (0 < v)) &&
  (match b.discountedPrice with
   | some (some v) => decide (0 < v)
   | _ => true) &&
  (match b.discountPercent with
   | some (some k) => decide (0 ≤ k ∧ k ≤ 100)
   | _ => true) &&
  (match b.categoryId with
   | none => true
   | some c => 1 ≤ c.length)

/-- The update handler's discount mutation: when both `updateData.price`
and `updateData.discountedPrice` are truthy the percent is recomputed
(overriding any supplied value); when `discountedPrice === null` the
percent is set to null; otherwise the supplied field passes through. -/
def putDiscountPercent (b : MenuUpdateBody) : Option (Option Int) :=
  if truthyNumQ b.price && truthyNumQQ b.discountedPrice then
    some (some (jsRound
      (((qValOf b.price - qqValOf b.discountedPrice) / qValOf b.price) * 100)))
  else if b.discountedPrice = some none then some none
  else b.discountPercent

/-- `prisma.menu.update` with the present fields of `updateData`. -/
def applyMenuUpdate (m : Menu) (b : MenuUpdateBody) : Menu :=
  { id := m.id,
    name := b.name.getD m.name,
    description := b.description.getD m.description,
    price := b.price.getD m.price,
    discountedPrice :=
      match b.discountedPrice with
      | some v => v
      | none => m.discountedPrice,
    discountPercent :=
      match b.discountPercent with
      | some v => v
      | none => m.discountPercent,
    status := b.status.getD m.status,
    imageUrl :=
      match b.imageUrl with
      | some v => v
      | none => m.imageUrl,
    imageKey :=
      match b.imageKey with
      | some v => v
      | none => m.imageKey,
    imageAlt :=
      match b.imageAlt with
      | some v => v
      | none => m.imageAlt,
    categoryId := b.categoryId.getD m.categoryId,
    createdAt := m.createdAt }

def adminMenuPUT (verify : String → Option TokenPayload)
    (authHeader : Option String) (reqPath : String)
    (body : Option MenuUpdateBody) (db : DB) : HandlerOut (Option Menu) :=
  if isAdminSessionB (sessionOf verify authHeader) = false then
    ⟨401, none, db, []⟩
  else
    match getIdFromRequest reqPath with
    | none => ⟨400, none, db, []⟩
    | some i =>
      match body with
      | none => ⟨400, none, db, []⟩
      | some b =>
        if validateUpdateMenu b = false then ⟨400, none, db, []⟩
        else
          match db.menus.find? (fun m => m.id == i) with
          | none => ⟨404, none, db, ["menu.findUnique"]⟩
          | some existing =>
            -- `if (validatedData.categoryId)` — truthy string
            let catTrace :=
              match b.categoryId with
              | some cid => if cid ≠ "" then ["category.findUnique"] else []
              | none => []
            let catOk :=
              match b.categoryId with
              | some cid =>
                if cid ≠ "" then
                  (db.categories.find? (fun c => c.id == cid)).isSome
                else true
              | none => true
            if catOk = false then
              ⟨400, none, db, "menu.findUnique" :: catTrace⟩
            else
              let updData := { b with discountPercent := putDiscountPercent b }
              let m' := applyMenuUpdate existing updData
              ⟨200, some m',
                { db with menus :=
                    db.menus.map (fun m => if m.id == i then m' else m) },
                ("menu.findUnique" :: catTrace) ++ ["menu.update"]⟩

/-! ## DELETE /api/admin/menus/[id] -/

def adminMenuDELETE (verify : String → Option TokenPayload)
    (authHeader : Option String) (reqPath : String) (db : DB) :
    HandlerOut String :=
  if isAdminSessionB (sessionOf verify authHeader) = false then
    ⟨401, "Unauthorized", db, []⟩
  else
    match getIdFromRequest reqPath with
    | none => ⟨400, "Invalid ID", db, []⟩
    | some i =>
      match db.menus.find? (fun m => m.id == i) with
      | none => ⟨404, "Menu not found", db, ["menu.findUnique"]⟩
      | some _ =>
        -- imageKey deletion goes to the storage collaborator (best
        -- effort); it is not a database operation and not traced here.
        ⟨200, "Menu deleted successfully",
          { db with menus := db.menus.filter (fun m => !(m.id == i)) },
          ["menu.findUnique", "menu.delete"]⟩

/-! ## POST /api/auth/register -/

structure RegisterBody where
  email : String
  password : String
  name : Option String
deriving DecidableEq, Repr

/-- Registration handler. A missing field and an empty string are both
JS-falsy, so both are modelled as `""`. `hash` is the external bcrypt
collaborator, `newId`/`now` the id generator and clock. -/
def registerPOST (hash : String → String) (newId : String)
    (body : RegisterBody) (db : DB) : HandlerOut (Option User) :=
  if body.email = "" ∨ body.password = "" then
    ⟨400, none, db, []⟩
  else if body.password.length < 6 then
    ⟨400, none, db, []⟩
  else
    match db.users.find? (fun u => u.email == body.email) with
    | some _ => ⟨400, none, db, ["user.findUnique"]⟩
    | none =>
      let u : User :=
        { id := newId,
          name := jsOrNullStr body.name,  -- `name: name || null`
          email := body.email,
          password := hash body.password,
          role := Role.USER }
      ⟨200, some u, { db with users := u :: db.users },
        ["user.findUnique", "user.create"]⟩

/-! ## POST /api/auth/login (admin login) -/

structure LoginBody where
  email : String
  password : String
deriving DecidableEq, Repr

/-- Admin login handler; the body is status and response `message`.
`checkPw plain hashed` is the external `bcrypt.compare` collaborator.
Token issuance on success is external signing and not modelled. -/
def adminLoginPOST (checkPw : String → String → Bool)
    (body : LoginBody) (db : DB) : HandlerOut String :=
  if body.email = "" ∨ body.password = "" then
    ⟨400, "Email dan password wajib diisi", db, []⟩
  else
    match db.users.find? (fun u => u.email == body.email) with
    | none => ⟨401, "Email atau password salah", db, ["user.findUnique"]⟩
    | some u =>
      -- `if (!user || !user.password)` — empty stored hash is falsy
      if u.password = "" then
        ⟨401, "Email atau password salah", db, ["user.findUnique"]⟩
      else if u.role ≠ Role.ADMIN then
        ⟨403, "Akses ditolak. Hanya admin yang diizinkan.", db,
          ["user.findUnique"]⟩
      else if checkPw body.password u.password then
        ⟨200, "Login admin berhasil", db, ["user.findUnique"]⟩
      else
        ⟨401, "Email atau password salah", db, ["user.findUnique"]⟩

/-! ## GET /api/public/menu -/

structure PublicMenu where
  id : String
  name : String
  description : List String
  price : ℚ
  discountedPrice : Option ℚ
  discountPercent : Option Int
  imageUrl : Option String
  imageAlt : Option String
deriving DecidableEq, Repr

structure PublicCategory where
  id : String
  name : String
  menus : List PublicMenu
deriving DecidableEq, Repr

/-- The per-menu transformation of the public listing (`Number(..)`
conversions are identities here; the `||`/`?:` collapses are explicit). -/
def transformPublicMenu (m : Menu) : PublicMenu :=
  { id := m.id, name := m.name, description := m.description,
    price := m.price,
    discountedPrice :=
      if truthyNumQ m.discountedPrice then m.discountedPrice else none,
    discountPercent := jsOrNullI m.discountPercent,
    imageUrl := jsOrNullStr m.imageUrl,
    imageAlt := jsOrNullStr m.imageAlt }

/-- Published menus of one category, ordered ascending by creation. -/
def publishedMenusOf (db : DB) (c : Category) : List Menu :=
  List.insertionSort menuOlderFirst
    (db.menus.filter
      (fun m => m.categoryId == c.id && m.status == ProductStatus.PUBLISHED))

def publicMenuGET (qCategory : Option String) (db : DB) :
    HandlerOut (List PublicCategory) :=
  -- `const categoryFilter = searchParams.get("category")`; truthiness
  -- makes `null` and `""` both mean "no filter".
  let categoryFilter := qCategory.getD ""
  let wherePred : Category → Bool := fun c =>
    (categoryFilter == "" || containsCI c.name categoryFilter) &&
    db.menus.any
      (fun m => m.categoryId == c.id && m.status == ProductStatus.PUBLISHED)
  let cats := List.insertionSort categoryOlderFirst
    (db.categories.filter wherePred)
  let out := cats.map (fun c =>
    { id := c.id, name := upperStr c.name,
      menus := (publishedMenusOf db c).map transformPublicMenu })
  ⟨200, out, db, ["category.findMany"]⟩

/-! ## Edge middleware (src/middleware.ts) -/

/-- `req.auth` as seen by the middleware: present session with the
user's role string. -/
structure MwSession where
  role : String
deriving DecidableEq, Repr

inductive GateDecision where
  | next : GateDecision
  | redirect (location : String) (cookiesCleared : List String) :
      GateDecision
deriving DecidableEq, Repr

/-- The four NextAuth cookie names deleted on the expired redirect. -/
def nextAuthCookies : List String :=
  ["next-auth.session-token", "__Secure-next-auth.session-token",
   "next-auth.csrf-token", "__Host-next-auth.csrf-token"]

/-- The middleware function body (what runs when the matcher selects the
request), with the source's early-return sequence preserved: expired
redirect, role check, login page, register page, pass-through. -/
def middlewareDecision (path : String) (s : Option MwSession) :
    GateDecision :=
  match s with
  | none =>
    -- `isAdministratorRoute && !isLoggedIn`; the later checks all
    -- require `isLoggedIn`, so an unauthenticated request falls
    -- through them to `NextResponse.next()`.
    if jsStartsWith path "/administrator" = true then
      .redirect "/login?expired=true" nextAuthCookies
    else .next
  | some u =>
    if jsStartsWith path "/administrator" = true ∧ u.role ≠ "ADMIN" then
      .redirect "/" []
    else if path = "/login" then
      if u.role = "ADMIN" then .redirect "/administrator" []
      else .redirect "/" []
    else if path = "/register" then
      if u.role = "ADMIN" then .redirect "/administrator" []
      else .redirect "/" []
    else .next

/-- `config.matcher = ["/administrator/:path*", "/login"]`:
`/administrator` itself, its sub-paths, and the login page. -/
def matcherMatches (path : String) : Bool :=
  path == "/administrator" || jsStartsWith path "/administrator/" ||
  path == "/login"

/-- The edge gate as deployed: the middleware runs only on matcher
paths; every other request passes through untouched. -/
def gate (path : String) (s : Option MwSession) : GateDecision :=
  if matcherMatches path = true then middlewareDecision path s else .next

/-- The decision procedure claimed by the specification (C3), stated from
its words: rule 1 for unauthenticated administrator-prefixed paths,
rule 2 for authenticated non-admin ones, rule 3 for the login AND
register pages, pass-through otherwise. -/
def gateClaimed (path : String) (s : Option MwSession) : GateDecision :=
  if jsStartsWith path "/administrator" = true then
    match s with
    | none => .redirect "/login?expired=true" nextAuthCookies
    | some u => if u.role ≠ "ADMIN" then .redirect "/" [] else .next
  else if path = "/login" ∨ path = "/register" then
    match s with
    | none => .next
    | some u =>
      if u.role = "ADMIN" then .redirect "/administrator" []
      else .redirect "/" []
  else .next

/-- The amended decision procedure: identical to the claim except that
the register page is outside the matcher, so register requests always
pass through, and the administrator rules apply to the matcher's
segment-wise administrator paths. -/
def gateAmended (path : String) (s : Option MwSession) : GateDecision :=
  if path = "/administrator" ∨ jsStartsWith path "/administrator/" = true then
    match s with
    | none => .redirect "/login?expired=true" nextAuthCookies
    | some u => if u.role ≠ "ADMIN" then .redirect "/" [] else .next
  else if path = "/login" then
    match s with
    | none => .next
    | some u =>
      if u.role = "ADMIN" then .redirect "/administrator" []
      else .redirect "/" []
  else .next

/-! ## Unauthorized-rejection shape shared by the admin handlers -/

/-- The handler rejected the request with 401, performed no persistence
operation and left the database untouched. -/
def rejectedUnauth {α : Type} (r : HandlerOut α) (db : DB) : Prop :=
  r.status = 401 ∧ r.trace = [] ∧ r.db = db

/-! ## Concrete fixtures used by the witness theorems -/

def wPayload : TokenPayload := ⟨"u1", "admin@x", "Admin", "admin", true⟩

def wVerify : String → Option TokenPayload :=
  fun t => if t = "tok" then some wPayload else none

def wHdr : Option String := some "Bearer tok"

def wCat : Category := ⟨"c1", "Paket", 0⟩

def wMenuPub : Menu :=
  ⟨"m1", "Nasi Box", ["enak"], 100, none, none, ProductStatus.PUBLISHED,
    none, none, none, "c1", 5⟩

def wDb0 : DB := ⟨[], [], []⟩

def wDbCat : DB := ⟨[], [wCat], []⟩

def wDbCatMenu : DB := ⟨[], [wCat], [wMenuPub]⟩

def wUserPlain : User := ⟨"u2", some "Budi", "budi@x", "hashed", Role.USER⟩

def wDbUser : DB := ⟨[wUserPlain], [], []⟩

def wCreateKeep : MenuCreateBody :=
  ⟨"A", ["x"], 100, some 80, some 50, ProductStatus.DRAFT, none, "c1"⟩

def wCreateRound : MenuCreateBody :=
  ⟨"A", ["x"], 200, some 150, none, ProductStatus.DRAFT, none, "c1"⟩

def wUpdateBoth : MenuUpdateBody :=
  ⟨none, none, some 100, some (some 80), some (some 7), none, none, none,
    none, none⟩

/-! # Theorems -/

/-- JS `Math.round` agrees with the mathematical `round` on exact
rationals (both are `⌊x + 1/2⌋`). -/
theorem jsRound_eq_round (q : ℚ) : jsRound q = round q := by
  rw [jsRound, round_eq]

/-- C4: a delete-category request targeting a category that owns at least
one menu returns status 400 and leaves the database (hence the category
row and all its menus) unchanged. -/
theorem delete_category_with_menus_400
    (verify : String → Option TokenPayload) (hdr : Option String)
    (reqPath : String) (db : DB) (i : String) (c : Category)
    (hadmin : isAdminSessionB (sessionOf verify hdr) = true)
    (hid : getIdFromRequest reqPath = some i)
    (hfind : db.categories.find? (fun c0 => c0.id == i) = some c)
    (hcount : 0 < menuCountOf db i) :
    (adminCategoryDELETE verify hdr reqPath db).status = 400 ∧
    (adminCategoryDELETE verify hdr reqPath db).db = db := by
  simp [adminCategoryDELETE, hadmin, hid, hfind, hcount]

/-- Witness for C4 at a concrete database with one category owning one
menu. -/
theorem delete_category_with_menus_400_witness :
    (adminCategoryDELETE wVerify wHdr "/api/admin/categories/c1" wDbCatMenu).status = 400 ∧
    (adminCategoryDELETE wVerify wHdr "/api/admin/categories/c1" wDbCatMenu).db = wDbCatMenu :=
  delete_category_with_menus_400 wVerify wHdr "/api/admin/categories/c1"
    wDbCatMenu "c1" wCat (by decide) (by decide) (by decide) (by decide)

/-- C5: a request to any of the ten `/api/admin/*` handlers that carries
no valid admin bearer token is answered with 401, with an empty
persistence trace (the database is neither read nor written) and an
unchanged database. -/
theorem admin_routes_unauthorized_401_no_persistence
    (verify : String → Option TokenPayload) (hdr : Option String)
    (qP qL qS qC qSt : Option String) (reqPath : String)
    (bodyCat : Option CategoryCreateBody) (bodyMenu : Option MenuCreateBody)
    (bodyUpd : Option MenuUpdateBody) (newId : String) (now : Nat) (db : DB)
    (h : isAdminSessionB (sessionOf verify hdr) = false) :
    rejectedUnauth (adminCategoriesGET verify hdr qP qL qS db) db ∧
    rejectedUnauth (adminCategoriesPOST verify hdr bodyCat newId now db) db ∧
    rejectedUnauth (adminCategoryGET verify hdr reqPath db) db ∧
    rejectedUnauth (adminCategoryPUT verify hdr reqPath bodyCat db) db ∧
    rejectedUnauth (adminCategoryDELETE verify hdr reqPath db) db ∧
    rejectedUnauth (adminMenusGET verify hdr qP qL qS qC qSt db) db ∧
    rejectedUnauth (adminMenusPOST verify hdr bodyMenu newId now db) db ∧
    rejectedUnauth (adminMenuGET verify hdr reqPath db) db ∧
    rejectedUnauth (adminMenuPUT verify hdr reqPath bodyUpd db) db ∧
    rejectedUnauth (adminMenuDELETE verify hdr reqPath db) db := by
  refine ⟨?_, ?_, ?_, ?_, ?_, ?_, ?_, ?_, ?_, ?_⟩ <;>
    simp [rejectedUnauth, adminCategoriesGET, adminCategoriesPOST,
      adminCategoryGET, adminCategoryPUT, adminCategoryDELETE,
      adminMenusGET, adminMenusPOST, adminMenuGET, adminMenuPUT,
      adminMenuDELETE, h]

/-- Witness for C5: a request with no Authorization header at all. -/
theorem admin_routes_unauthorized_401_no_persistence_witness :
    rejectedUnauth (adminCategoriesGET wVerify none none none none wDb0) wDb0 ∧
    rejectedUnauth (adminCategoriesPOST wVerify none none "c9" 0 wDb0) wDb0 ∧
    rejectedUnauth (adminCategoryGET wVerify none "/api/admin/categories/c1" wDb0) wDb0 ∧
    rejectedUnauth (adminCategoryPUT wVerify none "/api/admin/categories/c1" none wDb0) wDb0 ∧
    rejectedUnauth (adminCategoryDELETE wVerify none "/api/admin/categories/c1" wDb0) wDb0 ∧
    rejectedUnauth (adminMenusGET wVerify none none none none none none wDb0) wDb0 ∧
    rejectedUnauth (adminMenusPOST wVerify none none "m9" 0 wDb0) wDb0 ∧
    rejectedUnauth (adminMenuGET wVerify none "/api/admin/menus/m1" wDb0) wDb0 ∧
    rejectedUnauth (adminMenuPUT wVerify none "/api/admin/menus/m1" none wDb0) wDb0 ∧
    rejectedUnauth (adminMenuDELETE wVerify none "/api/admin/menus/m1" wDb0) wDb0 :=
  admin_routes_unauthorized_401_no_persistence wVerify none none none none
    none none "/api/admin/categories/c1" none none none "x" 0 wDb0 (by decide)

/-- C6: a menu-creation request with positive price, with
`discountedPrice = price * (1 - p/100)` for a rational `0 ≤ p < 100`,
and with no `discountPercent` supplied, stores `discountPercent`
equal to `round p`. -/
theorem create_discount_percent_rounds
    (verify : String → Option TokenPayload) (hdr : Option String)
    (db : DB) (b : MenuCreateBody) (newId : String) (now : Nat) (p : ℚ)
    (hadmin : isAdminSessionB (sessionOf verify hdr) = true)
    (hvalid : validateCreateMenu b = true)
    (hcat : (db.categories.find? (fun c => c.id == b.categoryId)).isSome = true)
    (hprice : 0 < b.price)
    (hp0 : 0 ≤ p) (hp1 : p < 100)
    (hdp : b.discountedPrice = some (b.price * (1 - p / 100)))
    (hnone : b.discountPercent = none) :
    (adminMenusPOST verify hdr (some b) newId now db).body.map Menu.discountPercent
      = some (some (round p)) := by
  obtain ⟨c, hc⟩ := Option.isSome_iff_exists.mp hcat
  have hne : b.price ≠ 0 := ne_of_gt hprice
  have hdpos : 0 < b.price * (1 - p / 100) := by
    apply mul_pos hprice
    linarith
  have harith : (b.price - b.price * (1 - p / 100)) / b.price * 100 = p := by
    field_simp
    ring
  have htr : truthyNumQ (some (b.price * (1 - p / 100))) = true := by
    simp only [truthyNumQ, bne_iff_ne, ne_eq]
    exact ne_of_gt hdpos
  have hcdp : createDiscountPercent b = some (jsRound p) := by
    rw [createDiscountPercent, hdp, hnone]
    simp [htr, truthyNumI, qValOf, harith]
  simp [adminMenusPOST, hadmin, hvalid, hc, hcdp, jsRound_eq_round]

/-- Witness for C6: price 200, discounted price 150, so `p = 25` and the
stored percent is 25. -/
theorem create_discount_percent_rounds_witness :
    (adminMenusPOST wVerify wHdr (some wCreateRound) "m1" 0 wDbCat).body.map
      Menu.discountPercent = some (some 25) :=
  (create_discount_percent_rounds wVerify wHdr wDbCat wCreateRound "m1" 0 25
    (by decide) (by decide) (by decide) (by decide) (by decide) (by decide)
    (by norm_num [wCreateRound]) rfl).trans (by norm_num [round_eq])

/-- C1 counterexample: a creation request supplying price 100, discounted
price 80 AND a client `discountPercent` of 50 stores 50 unchanged — the
server-side recomputation (which would give 20) does not override a
truthy client-supplied percent. -/
theorem create_discount_not_overridden_cex :
    (adminMenusPOST wVerify wHdr (some wCreateKeep) "m1" 0 wDbCat).body.map
      Menu.discountPercent = some (some 50) ∧
    jsRound (((100 : ℚ) - 80) / 100 * 100) = 20 ∧ (50 : Int) ≠ 20 :=
  ⟨by decide, by norm_num [jsRound], by decide⟩

/-- C1 amended: on creation the discount percent is recomputed from the
two absolute prices only when the client-supplied `discountPercent` is
falsy (absent, null or 0) and `discountedPrice` is truthy; a nonzero
client-supplied percent is stored as-is. On update, whenever both
`price` and `discountedPrice` are supplied (truthy), the percent is
always recomputed, overriding any client-supplied value. -/
theorem discount_percent_recompute_amended
    (verify : String → Option TokenPayload) (hdr : Option String)
    (db : DB) (b : MenuCreateBody) (ub : MenuUpdateBody)
    (reqPath newId : String) (now : Nat)
    (hadmin : isAdminSessionB (sessionOf verify hdr) = true)
    (hvalid : validateCreateMenu b = true)
    (hcat : (db.categories.find? (fun c => c.id == b.categoryId)).isSome = true) :
    (∀ k : Int, b.discountPercent = some k → k ≠ 0 →
      (adminMenusPOST verify hdr (some b) newId now db).body.map
        Menu.discountPercent = some (some k)) ∧
    (b.discountPercent = none → truthyNumQ b.discountedPrice = true →
      (adminMenusPOST verify hdr (some b) newId now db).body.map
        Menu.discountPercent =
        some (some (jsRound (((b.price - qValOf b.discountedPrice) / b.price) * 100)))) ∧
    (∀ i existing, validateUpdateMenu ub = true →
      getIdFromRequest reqPath = some i →
      db.menus.find? (fun m => m.id == i) = some existing →
      (∀ cid, ub.categoryId = some cid →
        (db.categories.find? (fun c0 => c0.id == cid)).isSome = true) →
      truthyNumQ ub.price = true → truthyNumQQ ub.discountedPrice = true →
      (adminMenuPUT verify hdr reqPath (some ub) db).body.map
        Menu.discountPercent =
        some (some (jsRound
          (((qValOf ub.price - qqValOf ub.discountedPrice) / qValOf ub.price) * 100)))) := by
  obtain ⟨c, hc⟩ := Option.isSome_iff_exists.mp hcat
  refine ⟨?_, ?_, ?_⟩
  · intro k hk hk0
    have hcdp : createDiscountPercent b = some k := by
      rw [createDiscountPercent, hk]
      simp [truthyNumI, bne_iff_ne, hk0, jsOrNullI]
    simp [adminMenusPOST, hadmin, hvalid, hc, hcdp]
  · intro hnone htr
    have hcdp : createDiscountPercent b =
        some (jsRound (((b.price - qValOf b.discountedPrice) / b.price) * 100)) := by
      rw [createDiscountPercent, hnone]
      simp [htr, truthyNumI]
    simp [adminMenusPOST, hadmin, hvalid, hc, hcdp]
  · intro i existing hvu hid hfind hcid htp htdp
    have hput : putDiscountPercent ub =
        some (some (jsRound
          (((qValOf ub.price - qqValOf ub.discountedPrice) / qValOf ub.price) * 100))) := by
      rw [putDiscountPercent]
      simp [htp, htdp]
    rcases hcase : ub.categoryId with _ | cid
    · simp [adminMenuPUT, hadmin, hid, hvu, hfind, hcase, hput, applyMenuUpdate]
    · have hcidne : cid ≠ "" := by
        have hv := hvu
        unfold validateUpdateMenu at hv
        simp only [hcase, Bool.and_eq_true, decide_eq_true_eq] at hv
        intro h0
        rw [h0] at hv
        simp at hv
      have hok : (db.categories.find? (fun c0 => c0.id == cid)).isSome = true :=
        hcid cid hcase
      simp [adminMenuPUT, hadmin, hid, hvu, hfind, hcase, hcidne, hok, hput,
        applyMenuUpdate]

/-- Witness for C1 amended: a creation keeping the client's 50 percent,
and an update of the same menu recomputing 20 from 100 and 80 in spite of
the client's 7. -/
theorem discount_percent_recompute_amended_witness :
    (adminMenusPOST wVerify wHdr (some wCreateKeep) "m1" 0 wDbCat).body.map
      Menu.discountPercent = some (some 50) ∧
    (adminMenuPUT wVerify wHdr "/api/admin/menus/m1" (some wUpdateBoth) wDbCatMenu).body.map
      Menu.discountPercent = some (some 20) := by
  have h := discount_percent_recompute_amended wVerify wHdr wDbCat wCreateKeep
    wUpdateBoth "/api/admin/menus/m1" "m1" 0 (by decide) (by decide) (by decide)
  have h2 := discount_percent_recompute_amended wVerify wHdr wDbCatMenu wCreateKeep
    wUpdateBoth "/api/admin/menus/m1" "m1" 0 (by decide) (by decide) (by decide)
  refine ⟨h.1 50 rfl (by decide), ?_⟩
  have h3 := h2.2.2 "m1" wMenuPub (by decide) (by decide) (by decide)
    (by intro cid hcid; simp [wUpdateBoth] at hcid) (by decide) (by decide)
  rw [h3]
  norm_num [wUpdateBoth, qValOf, qqValOf, jsRound]

/-- C8: a registration request whose email already belongs to an existing
user returns 400 and creates no new user row (the database is
unchanged). -/
theorem register_duplicate_email_400
    (hash : String → String) (newId : String) (body : RegisterBody) (db : DB)
    (hdup : ∃ u ∈ db.users, u.email = body.email) :
    (registerPOST hash newId body db).status = 400 ∧
    (registerPOST hash newId body db).db = db := by
  unfold registerPOST
  by_cases h1 : body.email = "" ∨ body.password = ""
  · simp [h1]
  · by_cases h2 : body.password.length < 6
    · simp [h1, h2]
    · obtain ⟨u, hu, he⟩ := hdup
      have hne : db.users.find? (fun u0 => u0.email == body.email) ≠ none := by
        rw [Ne, List.find?_eq_none]
        push_neg
        exact ⟨u, hu, by simp [he]⟩
      match hf : db.users.find? (fun u0 => u0.email == body.email) with
      | some _ => simp [h1, h2, hf]
      | none => exact absurd hf hne

/-- Witness for C8: registering `budi@x` twice. -/
theorem register_duplicate_email_400_witness :
    (registerPOST (fun s => s) "u9" ⟨"budi@x", "secret1", none⟩ wDbUser).status = 400 ∧
    (registerPOST (fun s => s) "u9" ⟨"budi@x", "secret1", none⟩ wDbUser).db = wDbUser :=
  register_duplicate_email_400 (fun s => s) "u9" ⟨"budi@x", "secret1", none⟩
    wDbUser ⟨wUserPlain, by decide, by decide⟩

/-- C2 counterexample: with one non-admin user `budi@x` in the store, a
login for `budi@x` (whatever the password: bcrypt is never consulted on
this path) is rejected with status 403, while a login for an unknown
email is rejected with 401 — the two rejections are not the identical
401 the claim states. -/
theorem admin_login_nonadmin_status_cex :
    (adminLoginPOST (fun _ _ => false) ⟨"budi@x", "pw"⟩ wDbUser).status = 403 ∧
    (adminLoginPOST (fun _ _ => false) ⟨"nobody@x", "pw"⟩ wDbUser).status = 401 ∧
    (403 : Nat) ≠ 401 := by
  decide

/-- C2 amended: the admin login rejects a non-admin user with 403 and the
distinct access-denied message, and this check runs before password
verification (the conclusion holds for every `checkPw`); an unknown email
and a wrong admin password are both rejected with the identical 401 and
message. The non-admin rejection therefore reveals, via its status and
message, that the email belongs to an existing non-admin account. -/
theorem admin_login_rejection_statuses
    (checkPw : String → String → Bool) (db : DB) (body : LoginBody)
    (hemail : body.email ≠ "") (hpw : body.password ≠ "") :
    (∀ u, db.users.find? (fun x => x.email == body.email) = some u →
      u.password ≠ "" → u.role ≠ Role.ADMIN →
      (adminLoginPOST checkPw body db).status = 403 ∧
      (adminLoginPOST checkPw body db).body =
        "Akses ditolak. Hanya admin yang diizinkan.") ∧
    (db.users.find? (fun x => x.email == body.email) = none →
      (adminLoginPOST checkPw body db).status = 401 ∧
      (adminLoginPOST checkPw body db).body = "Email atau password salah") ∧
    (∀ u, db.users.find? (fun x => x.email == body.email) = some u →
      u.password ≠ "" → u.role = Role.ADMIN →
      checkPw body.password u.password = false →
      (adminLoginPOST checkPw body db).status = 401 ∧
      (adminLoginPOST checkPw body db).body = "Email atau password salah") := by
  have hguard : ¬(body.email = "" ∨ body.password = "") := by
    push_neg
    exact ⟨hemail, hpw⟩
  refine ⟨?_, ?_, ?_⟩
  · intro u hu hupw hrole
    simp [adminLoginPOST, hguard, hu, hupw, hrole]
  · intro hnone
    simp [adminLoginPOST, hguard, hnone]
  · intro u hu hupw hrole hcmp
    simp [adminLoginPOST, hguard, hu, hupw, hrole, hcmp]

/-- Witness for C2 amended at a concrete non-admin user. -/
theorem admin_login_rejection_statuses_witness :
    (adminLoginPOST (fun _ _ => false) ⟨"budi@x", "pw"⟩ wDbUser).status = 403 ∧
    (adminLoginPOST (fun _ _ => false) ⟨"budi@x", "pw"⟩ wDbUser).body =
      "Akses ditolak. Hanya admin yang diizinkan." :=
  (admin_login_rejection_statuses (fun _ _ => false) wDbUser ⟨"budi@x", "pw"⟩
    (by decide) (by decide)).1 wUserPlain (by decide) (by decide) (by decide)

/-- C3 counterexample: an authenticated admin request for the register
page passes through unchanged (the matcher never routes `/register` to
the middleware), while the claimed four-rule gate would redirect it to
the admin home. -/
theorem gate_register_passthrough_cex :
    gate "/register" (some ⟨"ADMIN"⟩) = GateDecision.next ∧
    gateClaimed "/register" (some ⟨"ADMIN"⟩) =
      GateDecision.redirect "/administrator" [] ∧
    gate "/register" (some ⟨"ADMIN"⟩) ≠ gateClaimed "/register" (some ⟨"ADMIN"⟩) := by
  decide

/-- A prefix of a prefix: dropping a suffix of the pattern preserves
`listStarts`. -/
theorem listStarts_append_left {p q l : List Char}
    (h : listStarts (p ++ q) l = true) : listStarts p l = true := by
  induction p generalizing l with
  | nil => rfl
  | cons a as ih =>
    cases l with
    | nil => simp [listStarts] at h
    | cons b bs =>
      simp only [List.cons_append, listStarts, Bool.and_eq_true] at h ⊢
      exact ⟨h.1, ih h.2⟩

/-- A path under `/administrator/` also has the plain `/administrator`
prefix the middleware tests. -/
theorem startsWith_admin_of_slash {s : String}
    (h : jsStartsWith s "/administrator/" = true) :
    jsStartsWith s "/administrator" = true := by
  rw [jsStartsWith] at h ⊢
  rw [show "/administrator/".data = "/administrator".data ++ ['/'] from by decide] at h
  exact listStarts_append_left h

/-- C3 amended: the deployed gate decides every request exactly by the
claimed rules restricted to the matcher's scope — administrator-segment
paths and the login page; the register page (like every other unmatched
path) always passes through unchanged. -/
theorem gate_matches_amended_rules (path : String) (s : Option MwSession) :
    gate path s = gateAmended path s := by
  by_cases h1 : path = "/administrator"
  · subst h1
    cases s with
    | none => decide
    | some u =>
      obtain ⟨r⟩ := u
      by_cases hr : r = "ADMIN"
      · subst hr
        decide
      · simp [gate, matcherMatches, middlewareDecision, gateAmended, hr,
          show jsStartsWith "/administrator" "/administrator" = true from by decide,
          show ("/administrator" : String) ≠ "/login" from by decide,
          show ("/administrator" : String) ≠ "/register" from by decide]
  · by_cases h2 : jsStartsWith path "/administrator/" = true
    · have hA : jsStartsWith path "/administrator" = true :=
        startsWith_admin_of_slash h2
      have hL : path ≠ "/login" := by
        intro he
        rw [he] at h2
        exact absurd h2 (by decide)
      have hR : path ≠ "/register" := by
        intro he
        rw [he] at h2
        exact absurd h2 (by decide)
      have hM : matcherMatches path = true := by
        simp [matcherMatches, h2]
      cases s with
      | none => simp [gate, hM, middlewareDecision, gateAmended, hA, h2]
      | some u =>
        by_cases hr : u.role = "ADMIN"
        · simp [gate, hM, middlewareDecision, gateAmended, hA, h2, hL, hR, hr]
        · simp [gate, hM, middlewareDecision, gateAmended, hA, h2, hL, hR, hr]
    · by_cases h3 : path = "/login"
      · subst h3
        cases s with
        | none => decide
        | some u =>
          obtain ⟨r⟩ := u
          by_cases hr : r = "ADMIN"
          · subst hr
            decide
          · simp [gate, matcherMatches, middlewareDecision, gateAmended, hr,
              show jsStartsWith "/login" "/administrator" = false from by decide,
              show jsStartsWith "/login" "/administrator/" = false from by decide]
      · have h2f : jsStartsWith path "/administrator/" = false :=
          Bool.not_eq_true _ ▸ Bool.of_not_eq_true h2
        have hM : matcherMatches path = false := by
          simp [matcherMatches, h1, h2f, h3]
        simp [gate, hM, gateAmended, h1, h2f, h3]

/-- Every menu the admin listing returns passed its `where` filter. -/
theorem adminMenusGET_mem_filter
    (verify : String → Option TokenPayload) (hdr : Option String)
    (qP qL qS qC qSt : Option String) (db : DB) :
    ∀ m ∈ (adminMenusGET verify hdr qP qL qS qC qSt db).body.menus,
      m ∈ db.menus ∧
      menuWhere (strOrDefault qS "") (strOrDefault qC "")
        (strOrDefault qSt "") m = true := by
  intro m hm
  unfold adminMenusGET at hm
  split at hm
  · simp at hm
  · split at hm
    · simp only at hm
      have h1 : m ∈ List.insertionSort menuNewerFirst
          (db.menus.filter (menuWhere (strOrDefault qS "")
            (strOrDefault qC "") (strOrDefault qSt ""))) :=
        List.mem_of_mem_drop (List.mem_of_mem_take hm)
      rw [List.mem_insertionSort, List.mem_filter] at h1
      exact h1
    · simp at hm

/-- A menu accepted by the `where` filter for `status=PUBLISHED` is
published. -/
theorem menuWhere_published {search categoryId : String} {m : Menu}
    (h : menuWhere search categoryId "PUBLISHED" m = true) :
    m.status = ProductStatus.PUBLISHED := by
  unfold menuWhere at h
  rw [if_pos (by decide)] at h
  simp only [Bool.and_eq_true, beq_iff_eq] at h
  rw [if_neg (by decide)] at h
  exact h.2

/-- C7: a listing restricted to PUBLISHED status returns only published
items — the admin menu listing queried with `status=PUBLISHED`, and the
public menu listing, never contain a DRAFT item. -/
theorem published_listing_only_published
    (verify : String → Option TokenPayload) (hdr : Option String)
    (qPage qLimit qSearch qCategoryId qCat : Option String) (db : DB) :
    (∀ m ∈ (adminMenusGET verify hdr qPage qLimit qSearch qCategoryId
        (some "PUBLISHED") db).body.menus,
      m.status = ProductStatus.PUBLISHED) ∧
    (∀ c ∈ (publicMenuGET qCat db).body, ∀ pm ∈ c.menus,
      ∃ m ∈ db.menus, m.status = ProductStatus.PUBLISHED ∧
        pm = transformPublicMenu m) := by
  constructor
  · intro m hm
    have h := (adminMenusGET_mem_filter verify hdr qPage qLimit qSearch
      qCategoryId (some "PUBLISHED") db m hm).2
    exact menuWhere_published h
  · intro c hc pm hpm
    unfold publicMenuGET at hc
    simp only [List.mem_map] at hc
    obtain ⟨c0, hc0, rfl⟩ := hc
    simp only [List.mem_map] at hpm
    obtain ⟨m, hm, rfl⟩ := hpm
    unfold publishedMenusOf at hm
    rw [List.mem_insertionSort, List.mem_filter] at hm
    obtain ⟨hmem, hpred⟩ := hm
    simp only [Bool.and_eq_true, beq_iff_eq] at hpred
    exact ⟨m, hmem, hpred.2, rfl⟩

/-- C9: a public menu listing whose category filter matches no category
name answers 200 with an empty `categories` array (never 404). -/
theorem public_menu_empty_filter_200 (db : DB) (f : String) (hf : f ≠ "")
    (hnone : ∀ c ∈ db.categories, containsCI c.name f = false) :
    (publicMenuGET (some f) db).status = 200 ∧
    (publicMenuGET (some f) db).body = [] := by
  have hfil : db.categories.filter
      (fun c => ((some f).getD "" == "" || containsCI c.name ((some f).getD "")) &&
        db.menus.any
          (fun m => m.categoryId == c.id && m.status == ProductStatus.PUBLISHED)) = [] := by
    rw [List.filter_eq_nil_iff]
    intro c hc
    simp [hnone c hc, hf]
  constructor
  · rfl
  · show (List.insertionSort categoryOlderFirst
      (db.categories.filter _)).map _ = []
    rw [hfil]
    rfl

/-- Witness for C9: the filter `zzz` matches no category of a store that
has one published category. -/
theorem public_menu_empty_filter_200_witness :
    (publicMenuGET (some "zzz") wDbCatMenu).status = 200 ∧
    (publicMenuGET (some "zzz") wDbCatMenu).body = [] :=
  public_menu_empty_filter_200 wDbCatMenu "zzz" (by decide) (by decide)

/-- C10 counterexample: the page parameter is PRESENT in the query string
(with the empty value, as `?page=` produces) and the default 1 is still
applied — `searchParams.get("page") || "1"` treats a present-but-empty
parameter like an absent one, so the defaults do not apply "only when the
parameter is absent". -/
theorem listing_empty_param_default_cex :
    (adminMenusGET wVerify wHdr (some "") none none none none wDb0).body.pagination.map
      Pagination.page = some 1 ∧
    (adminCategoriesGET wVerify wHdr (some "") none none wDb0).body.pagination.map
      Pagination.page = some 1 := by
  constructor <;> decide

/-- C10 amended: `page` and `limit` default to 1 and 10 when the
parameter is absent or empty; no positivity check is applied (the
reachable input `limit=0` is accepted with status 200), the unguarded
`Math.ceil(total / limit)` produces no finite page count at `limit = 0`,
and the reported `pages` equals `⌈total / limit⌉` exactly under the
unchecked hypothesis `1 ≤ limit`. Both admin listings behave this way. -/
theorem listing_pagination_amended
    (verify : String → Option TokenPayload) (hdr : Option String)
    (qSearch qCategoryId qStatus qPage qLimit : Option String) (db : DB)
    (hadmin : isAdminSessionB (sessionOf verify hdr) = true) :
    ((adminMenusGET verify hdr none none qSearch qCategoryId qStatus db).body.pagination.map
        Pagination.page = some 1 ∧
      (adminMenusGET verify hdr none none qSearch qCategoryId qStatus db).body.pagination.map
        Pagination.limit = some 10) ∧
    ((adminCategoriesGET verify hdr none none qSearch db).body.pagination.map
        Pagination.page = some 1 ∧
      (adminCategoriesGET verify hdr none none qSearch db).body.pagination.map
        Pagination.limit = some 10) ∧
    ((adminMenusGET verify hdr (some "") (some "") qSearch qCategoryId qStatus db).body.pagination.map
        Pagination.page = some 1 ∧
      (adminMenusGET verify hdr (some "") (some "") qSearch qCategoryId qStatus db).body.pagination.map
        Pagination.limit = some 10) ∧
    ((adminMenusGET verify hdr none (some "0") qSearch qCategoryId qStatus db).status = 200 ∧
      (adminMenusGET verify hdr none (some "0") qSearch qCategoryId qStatus db).body.pagination.map
        Pagination.pages = some none) ∧
    ((adminCategoriesGET verify hdr none (some "0") qSearch db).status = 200 ∧
      (adminCategoriesGET verify hdr none (some "0") qSearch db).body.pagination.map
        Pagination.pages = some none) ∧
    (∀ P, (adminMenusGET verify hdr qPage qLimit qSearch qCategoryId qStatus db).body.pagination
        = some P → 1 ≤ P.limit →
      P.pages = some ⌈(P.total : ℚ) / (P.limit : ℚ)⌉) ∧
    (∀ P, (adminCategoriesGET verify hdr qPage qLimit qSearch db).body.pagination
        = some P → 1 ≤ P.limit →
      P.pages = some ⌈(P.total : ℚ) / (P.limit : ℚ)⌉) := by
  have p1 : parseIntJS "1" = some 1 := by decide
  have p10 : parseIntJS "10" = some 10 := by decide
  have p0 : parseIntJS "0" = some 0 := by decide
  refine ⟨⟨?_, ?_⟩, ⟨?_, ?_⟩, ⟨?_, ?_⟩, ⟨?_, ?_⟩, ⟨?_, ?_⟩, ?_, ?_⟩
  · simp [adminMenusGET, hadmin, strOrDefault, p1, p10]
  · simp [adminMenusGET, hadmin, strOrDefault, p1, p10]
  · simp [adminCategoriesGET, hadmin, strOrDefault, p1, p10]
  · simp [adminCategoriesGET, hadmin, strOrDefault, p1, p10]
  · simp [adminMenusGET, hadmin, strOrDefault, p1, p10]
  · simp [adminMenusGET, hadmin, strOrDefault, p1, p10]
  · simp [adminMenusGET, hadmin, strOrDefault, p1, p0]
  · simp [adminMenusGET, hadmin, strOrDefault, p1, p0, jsCeilDiv]
  · simp [adminCategoriesGET, hadmin, strOrDefault, p1, p0]
  · simp [adminCategoriesGET, hadmin, strOrDefault, p1, p0, jsCeilDiv]
  · intro P hP hl
    unfold adminMenusGET at hP
    rw [if_neg (by simp [hadmin])] at hP
    revert hP
    cases parseIntJS (strOrDefault qPage "1") with
    | none => simp
    | some page =>
      cases parseIntJS (strOrDefault qLimit "10") with
      | none => simp
      | some l =>
        intro hP
        simp only [Option.some.injEq] at hP
        subst hP
        have hl0 : l ≠ 0 := by
          simp only at hl
          omega
        simp [jsCeilDiv, hl0]
  · intro P hP hl
    unfold adminCategoriesGET at hP
    rw [if_neg (by simp [hadmin])] at hP
    revert hP
    cases parseIntJS (strOrDefault qPage "1") with
    | none => simp
    | some page =>
      cases parseIntJS (strOrDefault qLimit "10") with
      | none => simp
      | some l =>
        intro hP
        simp only [Option.some.injEq] at hP
        subst hP
        have hl0 : l ≠ 0 := by
          simp only at hl
          omega
        simp [jsCeilDiv, hl0]

/-- Witness for C10 amended at the concrete fixture store. -/
theorem listing_pagination_amended_witness :
    (adminMenusGET wVerify wHdr none none none none none wDb0).body.pagination.map
      Pagination.page = some 1 ∧
    (adminMenusGET wVerify wHdr none (some "0") none none none wDb0).body.pagination.map
      Pagination.pages = some none :=
  ⟨(listing_pagination_amended wVerify wHdr none none none none none wDb0
      (by decide)).1.1,
    (listing_pagination_amended wVerify wHdr none none none none none wDb0
      (by decide)).2.2.2.1.2⟩

end ADCatering
